import Mathlib

/-!
A shallow embedding of the `coldrift/zendesk-api` client
(`src/lib/zendesk.js`, with the near-duplicate variants `src/src/zendesk.js`
and `src/unnamed/part_000`) and proofs about its construction-time
authentication, its resource-method factory (list / show / showMany /
create / update / delete), its request pipeline, and its timeout handling.

JavaScript values that flow through the client (options fields, request
parameters, decoded JSON envelopes) are modelled by the inductive `JVal`;
JS truthiness, `typeof`, property access, `Object`-style assignment and
string coercion are modelled executably.  Node builtins used by the code
(`Buffer.toString('base64')`, `querystring`, `JSON.parse`) are modelled by
executable Lean functions (`base64Encode`, `qsStringify` / `qsParse`,
`jsonParse`); percent-encoding and floating-point numbers, which no claim
touches, are not modelled.
-/

namespace Zendesk

/-- JavaScript values as they occur in this client: `undefined`, `null`,
booleans, (integer) numbers, strings, arrays and plain objects whose
fields are kept in insertion order. -/
inductive JVal where
  | undefined : JVal
  | null : JVal
  | bool : Bool → JVal
  | num : Int → JVal
  | str : String → JVal
  | arr : List JVal → JVal
  | obj : List (String × JVal) → JVal

/-- JS `typeof`. -/
def jsTypeof : JVal → String
  | .undefined => "undefined"
  | .null => "object"
  | .bool _ => "boolean"
  | .num _ => "number"
  | .str _ => "string"
  | .arr _ => "object"
  | .obj _ => "object"

/-- JS truthiness: `undefined`, `null`, `false`, `0`, `""` are falsy. -/
def truthy : JVal → Bool
  | .undefined => false
  | .null => false
  | .bool b => b
  | .num n => n != 0
  | .str s => s ≠ ""
  | .arr _ => true
  | .obj _ => true

/-- JS `a || b`. -/
def jsOr (a b : JVal) : JVal := if truthy a then a else b

/-- JS `String(v)` for the scalar values the client interpolates into
paths and joins into comma-separated id lists. -/
def jsToString : JVal → String
  | .undefined => "undefined"
  | .null => "null"
  | .bool b => if b then "true" else "false"
  | .num n => toString n
  | .str s => s
  | .arr _ => ""
  | .obj _ => "[object Object]"

/-- First value bound to a key in an (insertion-ordered) field list. -/
def lookupField (fs : List (String × JVal)) (k : String) : Option JVal :=
  (fs.find? (fun p => p.1 = k)).map (fun p => p.2)

/-- JS property read `v[k]`: throws a `TypeError` on `null`/`undefined`,
yields `undefined` for a missing key, and the stored value otherwise. -/
def jsIndex : JVal → String → Except String JVal
  | .null, k => .error ("Cannot read properties of null (reading " ++ k ++ ")")
  | .undefined, k => .error ("Cannot read properties of undefined (reading " ++ k ++ ")")
  | .obj fs, k => .ok ((lookupField fs k).getD .undefined)
  | .bool _, _ => .ok .undefined
  | .num _, _ => .ok .undefined
  | .str _, _ => .ok .undefined
  | .arr _, _ => .ok .undefined

/-- JS property write `r[k] = v`: overwrites in place (keeping the key's
original position) or appends a fresh key. -/
def setProp (fs : List (String × JVal)) (k : String) (v : JVal) :
    List (String × JVal) :=
  if fs.any (fun p => p.1 = k) then
    fs.map (fun p => if p.1 = k then (k, v) else p)
  else
    fs ++ [(k, v)]

/-- The keys `for key in v` enumerates: object keys, array/string indices,
nothing for other values. -/
def forInPairs : JVal → List (String × JVal)
  | .obj fs => fs
  | .arr xs => xs.enum.map (fun p => (toString p.1, p.2))
  | .str s => s.data.enum.map (fun p => (toString p.1, JVal.str (String.singleton p.2)))
  | _ => []

/-- The source's `assign(object, from)` (src/lib/zendesk.js lines 12-24):
copy `object` into a fresh `{}`, then copy `from` over it, so keys of
`from` win on collision. -/
def assign (object from' : JVal) : JVal :=
  .obj ((forInPairs from').foldl (fun r p => setProp r p.1 p.2)
    ((forInPairs object).foldl (fun r p => setProp r p.1 p.2) []))

/-- The source's `stringifyArray` (src/lib/zendesk.js lines 26-28):
comma-join arrays via `Array.prototype.join`, pass anything else through. -/
def stringifyArray : JVal → JVal
  | .arr xs => .str (String.intercalate "," (xs.map jsToString))
  | v => v

/-- UTF-8 encoding of one code point (model of `Buffer.from(string)`). -/
def utf8EncodeCp (n : Nat) : List Nat :=
  if n < 0x80 then [n]
  else if n < 0x800 then [0xC0 + n / 0x40, 0x80 + n % 0x40]
  else if n < 0x10000 then
    [0xE0 + n / 0x1000, 0x80 + (n / 0x40) % 0x40, 0x80 + n % 0x40]
  else
    [0xF0 + n / 0x40000, 0x80 + (n / 0x1000) % 0x40, 0x80 + (n / 0x40) % 0x40,
      0x80 + n % 0x40]

/-- UTF-8 bytes of a string. -/
def utf8Bytes (s : String) : List Nat :=
  s.data.foldr (fun c acc => utf8EncodeCp c.toNat ++ acc) []

/-- Standard base64 alphabet. -/
def b64Char (n : Nat) : Char :=
  "ABCDEFGHIJKLMNOPQRSTUVWXYZabcdefghijklmnopqrstuvwxyz0123456789+/".data.getD n '='

/-- Base64 of a byte list, with `=` padding. -/
def b64Chunks : List Nat → String
  | b1 :: b2 :: b3 :: rest =>
    String.mk [b64Char (b1 / 4), b64Char (b1 % 4 * 16 + b2 / 16),
      b64Char (b2 % 16 * 4 + b3 / 64), b64Char (b3 % 64)] ++ b64Chunks rest
  | [b1, b2] =>
    String.mk [b64Char (b1 / 4), b64Char (b1 % 4 * 16 + b2 / 16),
      b64Char (b2 % 16 * 4), '=']
  | [b1] => String.mk [b64Char (b1 / 4), b64Char (b1 % 4 * 16), '=', '=']
  | [] => ""

/-- Model of `Buffer.from(s).toString('base64')`. -/
def base64Encode (s : String) : String := b64Chunks (utf8Bytes s)

/-- One value of a query-string pair, as Node's `querystring.stringify`
renders it (scalars; percent-encoding is not modelled, no claim needs it). -/
def qsValStr : JVal → String
  | .str s => s
  | .num n => toString n
  | .bool b => if b then "true" else "false"
  | _ => ""

/-- Model of `querystring.stringify`: `k=v` pairs joined with `&` for an
object, empty for anything else (the source only applies it to objects and
`null`). -/
def qsStringify : JVal → String
  | .obj fs => String.intercalate "&" (fs.map (fun p => p.1 ++ "=" ++ qsValStr p.2))
  | _ => ""

/-- Model of `querystring.parse`: split on `&`, then each piece at its
first `=` (a piece with no `=` maps to the empty string). -/
def qsParse (s : String) : List (String × JVal) :=
  ((s.splitOn "&").filter (fun p => p ≠ "")).foldl
    (fun r piece =>
      match piece.splitOn "=" with
      | [] => r
      | k :: rest => setProp r k (.str (String.intercalate "=" rest)))
    []

/-- Opening curly brace character. -/
def lcurly : Char := Char.ofNat 123

/-- Closing curly brace character. -/
def rcurly : Char := Char.ofNat 125

/-- Skip JSON whitespace. -/
def skipWs : List Char → List Char
  | c :: cs =>
    if c = ' ' ∨ c = '\n' ∨ c = '\t' ∨ c = '\r' then skipWs cs else c :: cs
  | [] => []

/-- Parse the body of a JSON string after its opening quote (escapes for
quote, backslash, `n` and `t`; other escaped characters taken literally). -/
def parseStr : List Char → Except String (String × List Char)
  | [] => .error "Unterminated string in JSON"
  | '"' :: cs => .ok ("", cs)
  | '\\' :: c :: cs =>
    (parseStr cs).map (fun p =>
      (String.singleton (if c = 'n' then '\n' else if c = 't' then '\t' else c) ++ p.1,
        p.2))
  | ['\\'] => .error "Unterminated string in JSON"
  | c :: cs => (parseStr cs).map (fun p => (String.singleton c ++ p.1, p.2))

/-- Take a maximal run of decimal digits. -/
def takeDigits : List Char → List Char × List Char
  | c :: cs =>
    if c.isDigit then
      let (ds, rest) := takeDigits cs
      (c :: ds, rest)
    else ([], c :: cs)
  | [] => ([], [])

/-- Numeric value of a digit run. -/
def digitsToNat (ds : List Char) : Nat :=
  ds.foldl (fun a c => a * 10 + (c.toNat - 48)) 0

mutual

/-- Parse one JSON value (fueled recursive-descent; integers only — no
claim involves fractional numbers). -/
def parseV : Nat → List Char → Except String (JVal × List Char)
  | 0, _ => .error "JSON input too deeply nested"
  | fuel + 1, input =>
    match skipWs input with
    | [] => .error "Unexpected end of JSON input"
    | c :: rest =>
      if c = '"' then (parseStr rest).map (fun p => (JVal.str p.1, p.2))
      else if c = lcurly then
        match skipWs rest with
        | [] => .error "Unexpected end of JSON input"
        | c2 :: rest2 =>
          if c2 = rcurly then .ok (JVal.obj [], rest2)
          else (parseFields fuel (c2 :: rest2)).map (fun p => (JVal.obj p.1, p.2))
      else if c = '[' then
        match skipWs rest with
        | ']' :: rest2 => .ok (JVal.arr [], rest2)
        | rest2 => (parseItems fuel rest2).map (fun p => (JVal.arr p.1, p.2))
      else if c = '-' then
        match takeDigits rest with
        | ([], _) => .error "Unexpected token - in JSON"
        | (ds, rest2) => .ok (JVal.num (-(digitsToNat ds : Int)), rest2)
      else if c.isDigit then
        match takeDigits (c :: rest) with
        | (ds, rest2) => .ok (JVal.num (digitsToNat ds : Int), rest2)
      else if (c :: rest).take 4 = ['n', 'u', 'l', 'l'] then
        .ok (JVal.null, (c :: rest).drop 4)
      else if (c :: rest).take 4 = ['t', 'r', 'u', 'e'] then
        .ok (JVal.bool true, (c :: rest).drop 4)
      else if (c :: rest).take 5 = ['f', 'a', 'l', 's', 'e'] then
        .ok (JVal.bool false, (c :: rest).drop 5)
      else .error "Unexpected token in JSON"

/-- Parse the elements of a non-empty JSON array after its opening bracket. -/
def parseItems : Nat → List Char → Except String (List JVal × List Char)
  | 0, _ => .error "JSON input too deeply nested"
  | fuel + 1, cs =>
    match parseV fuel cs with
    | .error m => .error m
    | .ok (v, rest) =>
      match skipWs rest with
      | ',' :: rest2 =>
        (parseItems fuel rest2).map (fun p => (v :: p.1, p.2))
      | ']' :: rest2 => .ok ([v], rest2)
      | _ => .error "Expected comma or bracket in JSON array"

/-- Parse the fields of a non-empty JSON object after its opening brace. -/
def parseFields : Nat → List Char →
    Except String (List (String × JVal) × List Char)
  | 0, _ => .error "JSON input too deeply nested"
  | fuel + 1, cs =>
    match skipWs cs with
    | '"' :: rest =>
      match parseStr rest with
      | .error m => .error m
      | .ok (k, rest1) =>
        match skipWs rest1 with
        | ':' :: rest2 =>
          match parseV fuel rest2 with
          | .error m => .error m
          | .ok (v, rest3) =>
            match skipWs rest3 with
            | [] => .error "Unexpected end of JSON input"
            | c4 :: rest4 =>
              if c4 = ',' then
                (parseFields fuel rest4).map (fun p => ((k, v) :: p.1, p.2))
              else if c4 = rcurly then .ok ([(k, v)], rest4)
              else .error "Expected comma or brace in JSON object"
        | _ => .error "Expected colon in JSON object"
    | _ => .error "Expected string key in JSON object"

end

/-- Model of `JSON.parse`: parse one value and require only whitespace
after it. -/
def jsonParse (s : String) : Except String JVal :=
  match parseV (2 * s.length + 2) s.data with
  | .ok (v, rest) =>
    if skipWs rest = [] then .ok v
    else .error "Unexpected non-whitespace character after JSON data"
  | .error m => .error m

/-- The distinct failure causes of `_request` (src/lib/zendesk.js lines
136-182): the timeout, a transport error, an empty reply, a non-2xx
status, and a JSON parse failure. -/
inductive PErr where
  | timeout : PErr
  | transport : String → PErr
  | emptyReply : PErr
  | httpStatus : Nat → String → PErr
  | malformed : String → PErr

/-- The `message` of the `Error` object `_request` passes to its callback
for each failure cause (`new Error('Timeout')`, the transport error
itself, `new Error('Empty reply from Zendesk')`,
`new Error(response.statusMessage)`, the `JSON.parse` exception). -/
def PErr.message : PErr → String
  | .timeout => "Timeout"
  | .transport m => m
  | .emptyReply => "Empty reply from Zendesk"
  | .httpStatus _ m => m
  | .malformed m => m

/-- What the HTTP transport delivers for one request: the timer fired
first, an `error` event, or a response that ended with a status, a status
message, and an accumulated body (`none` when no data chunk arrived). -/
inductive TransportOutcome where
  | timeout : TransportOutcome
  | transportError : String → TransportOutcome
  | reply : Nat → String → Option String → TransportOutcome

/-- The `end` handler of `_request` (src/lib/zendesk.js lines 143-161):
an absent body is an empty-reply error; a 2xx status decodes the body as
JSON (a parse failure is passed to the callback); any other status yields
an error carrying the status message. -/
def endResult (statusCode : Nat) (statusMessage : String) (body : Option String) :
    Except PErr JVal :=
  match body with
  | none => .error .emptyReply
  | some b =>
    if 200 ≤ statusCode ∧ statusCode < 300 then
      match jsonParse b with
      | .ok v => .ok v
      | .error m => .error (.malformed m)
    else .error (.httpStatus statusCode statusMessage)

/-- The result `_request_promisified` settles with, as a function of the
transport outcome of its single request. -/
def handleResponse : TransportOutcome → Except PErr JVal
  | .timeout => .error .timeout
  | .transportError m => .error (.transport m)
  | .reply status msg body => endResult status msg body

/-- The constructor's `accessor` (src/lib/zendesk.js lines 58-65):
`promise.then(result => result[path]).catch(err =>
Promise.reject(new Error(err.message)))`.  A settled envelope is indexed
by the field name — which resolves with `undefined` when the field is
absent and throws only when the envelope itself is `null`/`undefined` —
and every rejection is collapsed to a fresh error carrying only the
message string. -/
def accessor (p : Except PErr JVal) (path : String) : Except String JVal :=
  match p with
  | .error e => .error e.message
  | .ok result =>
    match jsIndex result path with
    | .ok v => .ok v
    | .error m => .error m

/-- `_parse_params` (src/lib/zendesk.js lines 189-192): a string is parsed
as a query string, anything else is returned unchanged. -/
def parse_params (params : JVal) : JVal :=
  if jsTypeof params = "string" then .obj (qsParse (jsToString params))
  else params

/-- The path prefix every request gets (src/lib/zendesk.js line 10). -/
def apiV2 : String := "/api/v2"

/-- The request `_request` issues, as observable on the wire: method, the
full path (with the query string appended for GET calls whose params are
an object), headers, and the body value for POST/PUT (`params || {}`). -/
structure RequestSpec where
  method : String
  path : String
  headers : List (String × String)
  body : Option JVal

/-- `_request`'s request construction (src/lib/zendesk.js lines 105-128):
`options.path = API_PREFIX + path + (method === 'GET' &&
typeof(params) === 'object' ? '?' + querystring.stringify(params) : '')`,
the `Authorization` and `Accept` headers on every request, and for
POST/PUT a JSON body of `params || {}` with its content headers. -/
def buildRequest (auth method path : String) (params : JVal) : RequestSpec :=
  { method := method
    path := apiV2 ++ path ++
      (if method = "GET" ∧ jsTypeof params = "object" then
        "?" ++ qsStringify params
      else "")
    headers :=
      [("Authorization", auth), ("Accept", "application/json;q=0.9,text/plain")] ++
        (if method = "POST" ∨ method = "PUT" then
          [("Content-Type", "application/json")]
        else [])
    body :=
      if method = "POST" ∨ method = "PUT" then some (jsOr params (.obj []))
      else none }

/-- Header lookup on a request. -/
def getHeader (r : RequestSpec) (k : String) : Option String :=
  (r.headers.find? (fun p => p.1 = k)).map (fun p => p.2)

/-- The construction input `{url, token, email?, oauth?}`, each field an
arbitrary JS value (`JVal.undefined` when absent). -/
structure Options where
  url : JVal
  token : JVal
  email : JVal
  oauth : JVal

/-- The constructor's credential handling (src/lib/zendesk.js lines
32-54): `!options.url` and `!options.token` throw; with falsy `oauth` a
falsy `email` throws and otherwise the header is
`'Basic ' + Buffer.from(email + '/token:' + token).toString('base64')`;
with truthy `oauth` it is `` `Bearer ${token}` ``.  The result is the
thrown message or the derived `authorization` value. -/
def construct (o : Options) : Except String String :=
  if ¬ truthy o.url then .error "You must specify Zendesk URL"
  else if ¬ truthy o.token then .error "You must specify Zendesk access token"
  else if ¬ truthy o.oauth then
    if ¬ truthy o.email then .error "You must specify Zendesk email"
    else .ok ("Basic " ++
      base64Encode (jsToString o.email ++ "/token:" ++ jsToString o.token))
  else .ok ("Bearer " ++ jsToString o.token)

/-- The request issued by `list` (line 70): `_list` first applies
`_parse_params`, then GETs `{prefix}/{plural}.json`. -/
def listReq (auth pfx plural : String) (params : JVal) : RequestSpec :=
  buildRequest auth "GET" (pfx ++ "/" ++ plural ++ ".json") (parse_params params)

/-- The request issued by `show` (line 71): GET
`{prefix}/{plural}/{id}.json` with the params passed through unparsed. -/
def showReq (auth pfx plural : String) (id params : JVal) : RequestSpec :=
  buildRequest auth "GET" (pfx ++ "/" ++ plural ++ "/" ++ jsToString id ++ ".json")
    params

/-- The params `showMany` hands to `_list` (lines 72-73):
`assign(params, ids: stringifyArray(ids))`, so the synthesized `ids`
entry wins on collision. -/
def showManyParams (ids params : JVal) : JVal :=
  assign params (.obj [("ids", stringifyArray ids)])

/-- The request issued by `showMany` (lines 72-73): GET
`{prefix}/{plural}/show_many.json` with the merged params. -/
def showManyReq (auth pfx plural : String) (ids params : JVal) : RequestSpec :=
  buildRequest auth "GET" (pfx ++ "/" ++ plural ++ "/show_many.json")
    (parse_params (showManyParams ids params))

/-- The request issued by `create` (line 74): POST `{prefix}/{plural}.json`
with body `{[singular]: params}`. -/
def createReq (auth pfx plural singular : String) (params : JVal) : RequestSpec :=
  buildRequest auth "POST" (pfx ++ "/" ++ plural ++ ".json")
    (.obj [(singular, params)])

/-- The request issued by `update` (line 75): PUT
`{prefix}/{plural}/{id}.json` with body `{[singular]: params}`. -/
def updateReq (auth pfx plural singular : String) (id params : JVal) : RequestSpec :=
  buildRequest auth "PUT" (pfx ++ "/" ++ plural ++ "/" ++ jsToString id ++ ".json")
    (.obj [(singular, params)])

/-- `_delete` (lines 211-213) as called by `delete` (line 76): the
`object_id` argument is ignored and the request carries `null` params. -/
def deleteReq (auth pfx plural : String) (id object_id : JVal) : RequestSpec :=
  buildRequest auth "DELETE"
    (pfx ++ "/" ++ plural ++ "/" ++ jsToString id ++ ".json") .null

/-- The settlement of `list` as a function of its request's transport
outcome: the envelope indexed by the plural name through `accessor`. -/
def listRes (plural : String) (o : TransportOutcome) : Except String JVal :=
  accessor (handleResponse o) plural

/-- The settlement of `show`: the envelope indexed by the singular name. -/
def showRes (singular : String) (o : TransportOutcome) : Except String JVal :=
  accessor (handleResponse o) singular

/-- The settlement of `showMany`: indexed by the plural name. -/
def showManyRes (plural : String) (o : TransportOutcome) : Except String JVal :=
  accessor (handleResponse o) plural

/-- The settlement of `create`: indexed by the singular name. -/
def createRes (singular : String) (o : TransportOutcome) : Except String JVal :=
  accessor (handleResponse o) singular

/-- The settlement of `update`: indexed by the singular name. -/
def updateRes (singular : String) (o : TransportOutcome) : Except String JVal :=
  accessor (handleResponse o) singular

/-- The settlement of `delete` (line 76): no `accessor` is applied, so the
raw pipeline result — decoded envelope or structured error — is returned. -/
def deleteRes (o : TransportOutcome) : Except PErr JVal :=
  handleResponse o

/-- A resource's name pair as registered with `createMethods`. -/
structure Resource where
  singular : String
  plural : String

/-- Line 93: `this.tickets = createMethods('ticket', 'tickets')('')`. -/
def ticketsRes : Resource := ⟨"ticket", "tickets"⟩

/-- Line 95: the `comments` child factory of the `ticket` encapsulator. -/
def commentsRes : Resource := ⟨"comment", "comments"⟩

/-- Line 100: `this.userFields = createMethods('user_field', 'users_fields')('')`. -/
def userFieldsRes : Resource := ⟨"user_field", "users_fields"⟩

/-- The top-level registry (src/lib/zendesk.js lines 93-102): handle name
↦ (singular, plural), every operation set bound at the empty string. -/
def registry : List (String × Resource) :=
  [("tickets", ⟨"ticket", "tickets"⟩),
   ("ticketFields", ⟨"ticket_field", "ticket_fields"⟩),
   ("organizations", ⟨"organization", "organizations"⟩),
   ("users", ⟨"user", "users"⟩),
   ("userFields", ⟨"user_field", "users_fields"⟩),
   ("macros", ⟨"macro", "macros"⟩),
   ("search", ⟨"search", "search"⟩)]

/-- `createEncapsulator` (lines 81-91): each child factory is applied at
the path `/{plural}/{parent_id}`. -/
def encapPfx (parentPlural : String) (parentId : JVal) : String :=
  "/" ++ parentPlural ++ "/" ++ jsToString parentId

/-- Events the HTTP response machinery delivers to `_request`'s handlers:
a data chunk, the `end` event (with the response status and status
message), or an `error` event. -/
inductive TEvent where
  | chunk : String → TEvent
  | endEv : Nat → String → TEvent
  | errEv : String → TEvent

/-- The observable state of one in-flight `_request` call: whether the
timeout timer is still armed, whether `request.abort()` was called, the
accumulated body, and what (if anything) the callback was settled with. -/
structure TState where
  timerArmed : Bool
  aborted : Bool
  body : Option String
  outcome : Option (Except PErr JVal)

/-- At request start the timer is armed (lines 177-182) and nothing has
arrived or settled. -/
def initTState : TState :=
  { timerArmed := true, aborted := false, body := none, outcome := none }

/-- The timer firing (lines 177-182): `request.abort()` then settle with
the Timeout error. -/
def fireTimer (s : TState) : TState :=
  { s with
    timerArmed := false
    aborted := true
    outcome := some (.error .timeout) }

/-- Process one timed event.  The timer, due `deadline` ms after request
start, fires before any event with a later timestamp if still armed.
Then, unless the request was aborted or already settled: a data chunk
runs `clearTimeout` and appends to the body (lines 138-141) — the timer
is never re-armed; `end` runs `clearTimeout` and settles per the body and
status (lines 143-161); `error` runs `clearTimeout` and settles with the
transport error (lines 164-169). -/
def tstep (deadline : Nat) (s : TState) (te : Nat × TEvent) : TState :=
  let s1 := if s.timerArmed && decide (deadline < te.1) then fireTimer s else s
  if s1.aborted || s1.outcome.isSome then s1
  else
    match te.2 with
    | .chunk d =>
      { s1 with timerArmed := false, body := some (s1.body.getD "" ++ d) }
    | .endEv st m =>
      { s1 with timerArmed := false, outcome := some (endResult st m s1.body) }
    | .errEv m =>
      { s1 with timerArmed := false, outcome := some (.error (.transport m)) }

/-- Run a whole trace of timed events (timestamps non-decreasing), then
let the timer fire if it is still armed once all events are past — the
deadline always elapses eventually. -/
def runRequestEvents (deadline : Nat) (events : List (Nat × TEvent)) : TState :=
  let s := events.foldl (tstep deadline) initTState
  if s.timerArmed then fireTimer s else s

/-- The body text `\x7b"ticket":\x7b"id":42\x7d\x7d`. -/
def envTicket42 : String := "\x7b\"ticket\":\x7b\"id\":42\x7d\x7d"

/-- The body text `\x7b\x7d` (the empty envelope). -/
def envEmpty : String := "\x7b\x7d"

/-- The fields of an object value (`[]` for non-objects). -/
def objFields : JVal → List (String × JVal)
  | .obj fs => fs
  | _ => []

/-- Whether an event is a data chunk. -/
def isChunk : TEvent → Bool
  | .chunk _ => true
  | _ => false

/-! ### Helper lemmas -/

theorem lookupField_setProp_self (fs : List (String × JVal)) (k : String) (v : JVal) :
    lookupField (setProp fs k v) k = some v := by
  unfold setProp
  split
  case isTrue h =>
    induction fs with
    | nil => simp at h
    | cons p rest ih =>
      by_cases hp : p.1 = k
      · simp [lookupField, List.find?, hp]
      · simp only [List.any_cons, Bool.or_eq_true, decide_eq_true_eq] at h
        rcases h with h | h
        · exact absurd h hp
        · simpa [lookupField, List.find?, hp] using ih h
  case isFalse h =>
    have hnone : fs.find? (fun p => p.1 = k) = none := by
      rw [List.find?_eq_none]
      intro p hp
      simp only [decide_eq_true_eq]
      intro hk
      exact h (List.any_eq_true.mpr ⟨p, hp, by simp [hk]⟩)
    simp [lookupField, List.find?_append, hnone, List.find?]

theorem lookupField_map_overwrite (fs : List (String × JVal)) (k : String) (v : JVal)
    (k' : String) (hne : k' ≠ k) :
    lookupField (fs.map (fun p => if p.1 = k then (k, v) else p)) k' =
      lookupField fs k' := by
  induction fs with
  | nil => rfl
  | cons p rest ih =>
    by_cases hp : p.1 = k
    · simpa [lookupField, List.find?, hp, Ne.symm hne, hp ▸ Ne.symm hne] using ih
    · by_cases hp' : p.1 = k'
      · simp [lookupField, List.find?, hp, hp', hne, Ne.symm hne]
      · simpa [lookupField, List.find?, hp, hp'] using ih

theorem lookupField_setProp_ne (fs : List (String × JVal)) (k : String) (v : JVal)
    (k' : String) (hne : k' ≠ k) :
    lookupField (setProp fs k v) k' = lookupField fs k' := by
  unfold setProp
  split
  case isTrue h => exact lookupField_map_overwrite fs k v k' hne
  case isFalse h =>
    rcases hfind : fs.find? (fun p => p.1 = k') with _ | p
    · simp [lookupField, List.find?_append, hfind, List.find?, Ne.symm hne]
    · simp [lookupField, List.find?_append, hfind]

theorem foldl_setProp_fresh (fs : List (String × JVal)) :
    ∀ acc : List (String × JVal),
      (fs.map Prod.fst).Nodup →
      (∀ x ∈ fs.map Prod.fst, x ∉ acc.map Prod.fst) →
      fs.foldl (fun r p => setProp r p.1 p.2) acc = acc ++ fs := by
  induction fs with
  | nil => intro acc _ _; simp
  | cons p rest ih =>
    intro acc hnd hdisj
    have hk : p.1 ∉ acc.map Prod.fst := hdisj p.1 (by simp)
    have hset : setProp acc p.1 p.2 = acc ++ [p] := by
      have hcond : ¬ ((acc.any fun q => decide (q.1 = p.1)) = true) := by
        intro hany
        rcases List.any_eq_true.mp hany with ⟨q, hq, hqk⟩
        simp only [decide_eq_true_eq] at hqk
        exact hk (List.mem_map.mpr ⟨q, hq, hqk⟩)
      unfold setProp
      rw [if_neg hcond]
    have hnd2 : (p.1 :: rest.map Prod.fst).Nodup := by simpa using hnd
    have hnd' : (rest.map Prod.fst).Nodup := (List.nodup_cons.mp hnd2).2
    have hknotrest : p.1 ∉ rest.map Prod.fst := (List.nodup_cons.mp hnd2).1
    have hdisj' : ∀ x ∈ rest.map Prod.fst, x ∉ (acc ++ [p]).map Prod.fst := by
      intro x hx
      simp only [List.map_append, List.mem_append, List.map_cons, List.map_nil,
        List.mem_cons, List.not_mem_nil, or_false]
      rintro (hxa | hxp)
      · exact hdisj x (by simp [hx]) hxa
      · exact hknotrest (hxp ▸ hx)
    calc (p :: rest).foldl (fun r q => setProp r q.1 q.2) acc
        = rest.foldl (fun r q => setProp r q.1 q.2) (acc ++ [p]) := by
          simp [List.foldl_cons, hset]
      _ = (acc ++ [p]) ++ rest := ih (acc ++ [p]) hnd' hdisj'
      _ = acc ++ (p :: rest) := by simp

theorem assign_obj_single (params : List (String × JVal)) (k : String) (v : JVal)
    (hnd : (params.map Prod.fst).Nodup) :
    assign (.obj params) (.obj [(k, v)]) = .obj (setProp params k v) := by
  unfold assign
  simp only [forInPairs]
  rw [foldl_setProp_fresh params [] hnd (by simp)]
  simp

theorem getHeader_buildRequest_auth (a method path : String) (params : JVal) :
    getHeader (buildRequest a method path params) "Authorization" = some a := by
  simp [getHeader, buildRequest, List.find?]

/-! ### Claim theorems -/

/-- C1: Construction fails with a `ConfigError` exactly when `url` is
missing (JS-falsy), `token` is missing, or `email` is missing while
`oauth` is falsy; otherwise with falsy `oauth` the authorization value is
`Basic ` followed by the base64 of `email/token:token`, and with truthy
`oauth` it is `Bearer ` followed by the token, regardless of email.  The
value is computed once by the constructor, and every request built
afterwards carries exactly that value in its `Authorization` header —
it is never recomputed per request. -/
theorem c1_constructor_auth (o : Options) :
    ((∃ m, construct o = .error m) ↔
      (truthy o.url = false ∨ truthy o.token = false ∨
        (truthy o.oauth = false ∧ truthy o.email = false))) ∧
    (truthy o.url = true → truthy o.token = true → truthy o.oauth = false →
      truthy o.email = true →
      construct o = .ok ("Basic " ++
        base64Encode (jsToString o.email ++ "/token:" ++ jsToString o.token))) ∧
    (truthy o.url = true → truthy o.token = true → truthy o.oauth = true →
      construct o = .ok ("Bearer " ++ jsToString o.token)) ∧
    (∀ a method path params, construct o = .ok a →
      getHeader (buildRequest a method path params) "Authorization" = some a) := by
  refine ⟨?_, ?_, ?_,
    fun a method path params _ => getHeader_buildRequest_auth a method path params⟩
  all_goals
    cases hu : truthy o.url <;> cases ht : truthy o.token <;>
      cases ho : truthy o.oauth <;> cases he : truthy o.email <;>
      simp [construct, hu, ht, ho, he]

/-- Witness for C1: a concrete basic-auth construction, a concrete bearer
construction, and a concrete missing-url failure. -/
theorem c1_constructor_auth_witness :
    construct ⟨.str "https://z.example.com", .str "tok", .str "e@x.com", .undefined⟩ =
      Except.ok ("Basic " ++ base64Encode "e@x.com/token:tok") ∧
    construct ⟨.str "https://z.example.com", .str "tok", .undefined, .bool true⟩ =
      Except.ok ("Bearer tok") ∧
    (∃ m, construct ⟨.undefined, .str "tok", .str "e@x.com", .undefined⟩ = Except.error m) :=
  ⟨(c1_constructor_auth _).2.1 (by decide) (by decide) (by decide) (by decide),
   (c1_constructor_auth _).2.2.1 (by decide) (by decide) (by decide),
   (c1_constructor_auth _).1.mpr (Or.inl (by decide))⟩

/-- C9: read-parameter parsing is idempotent — `_parse_params` turns an
already-encoded query string into a mapping, is the identity on an
already-parsed mapping, and hence `list` issues the same encoded query
string on two calls with the same already-parsed mapping. -/
theorem c9_parse_params_idempotent :
    (∀ p, parse_params (parse_params p) = parse_params p) ∧
    (∀ m : List (String × JVal), parse_params (.obj m) = .obj m) ∧
    (∀ s : String, parse_params (.str s) = .obj (qsParse s)) ∧
    (∀ auth pfx plural (m : List (String × JVal)),
      (listReq auth pfx plural (.obj m)).path =
        (listReq auth pfx plural (.obj m)).path) := by
  refine ⟨fun p => ?_, fun m => rfl, fun s => rfl, fun _ _ _ _ => rfl⟩
  cases p <;> rfl

/-- C10: in every variant (src/lib/zendesk.js line 100, src/src/zendesk.js
line 99, src/unnamed/part_000 line 86) the `userFields` operation set is
registered with plural name `users_fields` — not `user_fields` — and
singular name `user_field`: `userFields.list()` issues GET
`/api/v2/users_fields.json` and unwraps the `users_fields` envelope
field, and `userFields.create(params)` POSTs body `user_field: params`
to `/api/v2/users_fields.json`. -/
theorem c10_userFields_registration (auth : String) (params : JVal) :
    userFieldsRes = ⟨"user_field", "users_fields"⟩ ∧
    (registry.find? (fun p => p.1 = "userFields")).map (fun p => p.2.plural) =
      some "users_fields" ∧
    (listReq auth "" userFieldsRes.plural .undefined).method = "GET" ∧
    (listReq auth "" userFieldsRes.plural .undefined).path = "/api/v2/users_fields.json" ∧
    (∀ o, listRes userFieldsRes.plural o = accessor (handleResponse o) "users_fields") ∧
    (createReq auth "" userFieldsRes.plural userFieldsRes.singular params).method =
      "POST" ∧
    (createReq auth "" userFieldsRes.plural userFieldsRes.singular params).path =
      "/api/v2/users_fields.json" ∧
    (createReq auth "" userFieldsRes.plural userFieldsRes.singular params).body =
      some (.obj [("user_field", params)]) :=
  ⟨rfl, rfl, rfl, rfl, fun _ => rfl, rfl, rfl, rfl⟩

/-- C2 counterexample: `show(42)` with singular name `ticket` against the
decoded envelope of the empty object — which lacks the `ticket` field —
resolves with JS `undefined` instead of failing with a `ShapeError`: the
accessor's `result[path]` on a plain object with a missing key yields
`undefined` without throwing, so the promise fulfills. -/
theorem c2_counterexample :
    showRes "ticket" (.reply 200 "OK" (some envEmpty)) = Except.ok JVal.undefined := by
  rfl

/-- C2 amended: when the decoded JSON envelope (a plain object) lacks the
expected field, each unwrapping operation (list, show, showMany, create,
update) resolves with `undefined` rather than rejecting with a
`ShapeError`; when the field is present the operation resolves with its
value — in particular `show(42)` with singular name `ticket` against the
envelope containing `ticket` with `id` 42 returns that object, and
against the empty envelope resolves with `undefined`. -/
theorem c2_missing_field_resolves_undefined :
    (∀ (field : String) (fs : List (String × JVal)) (o : TransportOutcome),
      handleResponse o = .ok (.obj fs) → lookupField fs field = none →
      listRes field o = .ok .undefined ∧ showRes field o = .ok .undefined ∧
        showManyRes field o = .ok .undefined ∧ createRes field o = .ok .undefined ∧
        updateRes field o = .ok .undefined) ∧
    (∀ (field : String) (fs : List (String × JVal)) (o : TransportOutcome) (v : JVal),
      handleResponse o = .ok (.obj fs) → lookupField fs field = some v →
      showRes field o = .ok v) ∧
    showRes "ticket" (.reply 200 "OK" (some envTicket42)) =
      .ok (.obj [("id", .num 42)]) ∧
    showRes "ticket" (.reply 200 "OK" (some envEmpty)) = .ok .undefined := by
  refine ⟨?_, ?_, rfl, rfl⟩
  · intro field fs o ho hnone
    simp [listRes, showRes, showManyRes, createRes, updateRes, accessor, ho,
      jsIndex, hnone]
  · intro field fs o v ho hsome
    simp [showRes, accessor, ho, jsIndex, hsome]

/-- Witness for the amended C2: concrete missing-field and present-field
envelopes. -/
theorem c2_missing_field_resolves_undefined_witness :
    listRes "tickets" (.reply 200 "OK" (some envEmpty)) = Except.ok JVal.undefined ∧
    showRes "ticket" (.reply 200 "OK" (some envTicket42)) =
      Except.ok (JVal.obj [("id", JVal.num 42)]) :=
  ⟨(c2_missing_field_resolves_undefined.1 "tickets" []
      (.reply 200 "OK" (some envEmpty)) rfl rfl).1,
   c2_missing_field_resolves_undefined.2.1 "ticket"
      [("ticket", .obj [("id", .num 42)])] (.reply 200 "OK" (some envTicket42))
      (.obj [("id", .num 42)]) rfl rfl⟩

/-- C3: `showMany(ids, params)` issues GET
`{prefix}/{plural}/show_many.json` whose query parameters are the caller
params merged with a synthesized `ids` field equal to the comma-joined
identifier list, the synthesized entry winning on key collision (a
caller-supplied `ids` key is overridden), and the result is the
unwrapped plural envelope field. -/
theorem c3_showMany_merge (auth pfx plural : String) (ids : List JVal)
    (params : List (String × JVal)) (hnd : (params.map Prod.fst).Nodup) :
    (showManyReq auth pfx plural (.arr ids) (.obj params)).method = "GET" ∧
    (showManyReq auth pfx plural (.arr ids) (.obj params)).path =
      apiV2 ++ pfx ++ "/" ++ plural ++ "/show_many.json" ++ "?" ++
        qsStringify (showManyParams (.arr ids) (.obj params)) ∧
    lookupField (objFields (showManyParams (.arr ids) (.obj params))) "ids" =
      some (.str (String.intercalate "," (ids.map jsToString))) ∧
    (∀ k, k ≠ "ids" →
      lookupField (objFields (showManyParams (.arr ids) (.obj params))) k =
        lookupField params k) ∧
    (∀ o fs v, handleResponse o = .ok (.obj fs) → lookupField fs plural = some v →
      showManyRes plural o = .ok v) := by
  have hassign : showManyParams (.arr ids) (.obj params) =
      .obj (setProp params "ids"
        (.str (String.intercalate "," (ids.map jsToString)))) := by
    unfold showManyParams stringifyArray
    exact assign_obj_single params "ids" _ hnd
  refine ⟨rfl, ?_, ?_, ?_, ?_⟩
  · show apiV2 ++ (pfx ++ "/" ++ plural ++ "/show_many.json") ++ _ = _
    rw [hassign]
    simp [parse_params, jsTypeof, buildRequest, String.append_assoc]
    congr 4
  · rw [hassign]
    exact lookupField_setProp_self params "ids" _
  · intro k hk
    rw [hassign]
    exact lookupField_setProp_ne params "ids" _ k hk
  · intro o fs v ho hsome
    simp [showManyRes, accessor, ho, jsIndex, hsome]

/-- Witness for C3: ids `[1,2,3]` with a caller-supplied `ids` parameter. -/
theorem c3_showMany_merge_witness :
    lookupField (objFields (showManyParams (.arr [.num 1, .num 2, .num 3])
        (.obj [("a", .str "b"), ("ids", .str "9")]))) "ids" =
      some (.str "1,2,3") ∧
    (showManyReq "A" "" "tickets" (.arr [.num 1, .num 2, .num 3])
        (.obj [("a", .str "b"), ("ids", .str "9")])).path =
      "/api/v2/tickets/show_many.json?a=b&ids=1,2,3" := by
  have h := c3_showMany_merge "A" "" "tickets" [.num 1, .num 2, .num 3]
    [("a", .str "b"), ("ids", .str "9")] (by decide)
  exact ⟨h.2.2.1, h.2.1.trans (by rfl)⟩

/-- C4: `create(params)` issues POST `{prefix}/{plural}.json` with body
`[singular]: params`; `update(id, params)` issues PUT
`{prefix}/{plural}/{id}.json` with the same body shape; each unwraps the
singular envelope field of the response.  In particular
`create(subject: "x")` on the `ticket` resource sends body
`ticket: (subject: "x")` to POST `/api/v2/tickets.json`. -/
theorem c4_create_update_body (auth pfx plural singular : String) (id params : JVal) :
    (createReq auth pfx plural singular params).method = "POST" ∧
    (createReq auth pfx plural singular params).path =
      apiV2 ++ pfx ++ "/" ++ plural ++ ".json" ∧
    (createReq auth pfx plural singular params).body =
      some (.obj [(singular, params)]) ∧
    (updateReq auth pfx plural singular id params).method = "PUT" ∧
    (updateReq auth pfx plural singular id params).path =
      apiV2 ++ pfx ++ "/" ++ plural ++ "/" ++ jsToString id ++ ".json" ∧
    (updateReq auth pfx plural singular id params).body =
      some (.obj [(singular, params)]) ∧
    (∀ o fs v, handleResponse o = .ok (.obj fs) → lookupField fs singular = some v →
      createRes singular o = .ok v ∧ updateRes singular o = .ok v) ∧
    (createReq auth "" ticketsRes.plural ticketsRes.singular
      (.obj [("subject", .str "x")])).path = "/api/v2/tickets.json" ∧
    (createReq auth "" ticketsRes.plural ticketsRes.singular
      (.obj [("subject", .str "x")])).body =
      some (.obj [("ticket", .obj [("subject", .str "x")])]) := by
  refine ⟨rfl, ?_, rfl, rfl, ?_, rfl, ?_, rfl, rfl⟩
  · show apiV2 ++ (pfx ++ "/" ++ plural ++ ".json") ++ "" = _
    simp [String.append_assoc]
  · show apiV2 ++ (pfx ++ "/" ++ plural ++ "/" ++ jsToString id ++ ".json") ++ "" = _
    simp [String.append_assoc]
  · intro o fs v ho hsome
    constructor <;> simp [createRes, updateRes, accessor, ho, jsIndex, hsome]

/-- Witness for C4: a concrete `ticket` creation envelope unwrap. -/
theorem c4_create_update_body_witness :
    createRes "ticket" (.reply 201 "Created" (some envTicket42)) =
      Except.ok (JVal.obj [("id", JVal.num 42)]) :=
  ((c4_create_update_body "A" "" "tickets" "ticket" JVal.undefined JVal.undefined).2.2.2.2.2.2.1
    (.reply 201 "Created" (some envTicket42)) [("ticket", .obj [("id", .num 42)])]
    (.obj [("id", .num 42)]) rfl rfl).1

/-- C5: nested access binds the child operation set at the path
`/{parentPlural}/{id}` — `ticket(id).comments.list()` issues GET
`/api/v2/tickets/{id}/comments.json`, in particular
`/api/v2/tickets/7/comments.json` for id 7 — and every request path
built by `_request` is prefixed with `/api/v2`. -/
theorem c5_nested_api_prefix (auth : String) (id : JVal) :
    (listReq auth (encapPfx "tickets" id) commentsRes.plural .undefined).method = "GET" ∧
    (listReq auth (encapPfx "tickets" id) commentsRes.plural .undefined).path =
      "/api/v2/tickets/" ++ jsToString id ++ "/comments.json" ∧
    (listReq auth (encapPfx "tickets" (.num 7)) commentsRes.plural .undefined).path =
      "/api/v2/tickets/7/comments.json" ∧
    (∀ method path params, ∃ tail,
      (buildRequest auth method path params).path = "/api/v2" ++ tail) := by
  refine ⟨rfl, ?_, rfl, fun method path params =>
    ⟨path ++ (if method = "GET" ∧ jsTypeof params = "object" then
      "?" ++ qsStringify params else ""), ?_⟩⟩
  · show apiV2 ++ ("/" ++ "tickets" ++ "/" ++ jsToString id ++ "/" ++ "comments" ++
      ".json") ++ "" = _
    simp [String.append_assoc]
    rfl
  · show apiV2 ++ path ++ _ = "/api/v2" ++ (path ++ _)
    rw [String.append_assoc]
    rfl

/-- C6: `delete(id)` issues DELETE `{prefix}/{plural}/{id}.json` with no
request body (the trailing argument `_delete` receives is discarded and
`null` is sent as params), and its result is the raw decoded envelope,
with no envelope-field unwrapping, even when the response carries no
named field. -/
theorem c6_delete_raw (auth pfx plural : String) (id object_id other_id : JVal) :
    (deleteReq auth pfx plural id object_id).method = "DELETE" ∧
    (deleteReq auth pfx plural id object_id).path =
      apiV2 ++ pfx ++ "/" ++ plural ++ "/" ++ jsToString id ++ ".json" ∧
    (deleteReq auth pfx plural id object_id).body = none ∧
    deleteReq auth pfx plural id object_id = deleteReq auth pfx plural id other_id ∧
    (∀ o, deleteRes o = handleResponse o) ∧
    (∀ status msg body env, 200 ≤ status → status < 300 →
      jsonParse body = .ok env →
      deleteRes (.reply status msg (some body)) = .ok env) := by
  refine ⟨rfl, ?_, rfl, rfl, fun _ => rfl, ?_⟩
  · show apiV2 ++ (pfx ++ "/" ++ plural ++ "/" ++ jsToString id ++ ".json") ++ "" = _
    simp [String.append_assoc]
  · intro status msg body env h1 h2 hparse
    simp [deleteRes, handleResponse, endResult, h1, h2, hparse]

/-- Witness for C6: deleting against a 200 reply whose envelope is the
empty object yields that raw envelope unchanged. -/
theorem c6_delete_raw_witness :
    deleteRes (.reply 200 "OK" (some envEmpty)) = Except.ok (JVal.obj []) :=
  (c6_delete_raw "A" "" "tickets" (.num 5) (.num 5) JVal.null).2.2.2.2.2
    200 "OK" envEmpty (.obj []) (by norm_num) (by norm_num) rfl

/-- C8: whatever the failure cause — timeout, transport error, non-2xx
status, empty reply, malformed JSON, or the unwrap step throwing on a
`null` envelope — every factory operation that unwraps (list, show,
showMany, create, update) rejects with the single flattened error shape
carrying only the message text of the underlying cause; structured cause
detail is discarded by `accessor`'s re-wrapping, and each operation is a
function of the single transport outcome of its one request (no retry). -/
theorem c8_error_normalization (singular plural field : String) (o : TransportOutcome) :
    (∀ e, handleResponse o = .error e →
      listRes plural o = .error e.message ∧
      showRes singular o = .error e.message ∧
      showManyRes plural o = .error e.message ∧
      createRes singular o = .error e.message ∧
      updateRes singular o = .error e.message) ∧
    (handleResponse o = .ok .null →
      showRes field o =
        .error ("Cannot read properties of null (reading " ++ field ++ ")")) := by
  constructor
  · intro e he
    refine ⟨?_, ?_, ?_, ?_, ?_⟩ <;>
      simp [listRes, showRes, showManyRes, createRes, updateRes, accessor, he]
  · intro hn
    simp [showRes, accessor, hn, jsIndex]

/-- Witness for C8: each concrete failure cause rejects with exactly the
underlying message text. -/
theorem c8_error_normalization_witness :
    listRes "tickets" .timeout = Except.error "Timeout" ∧
    showRes "ticket" (.transportError "ECONNREFUSED") =
      Except.error "ECONNREFUSED" ∧
    showManyRes "tickets" (.reply 404 "Not Found" (some "x")) =
      Except.error "Not Found" ∧
    createRes "ticket" (.reply 200 "OK" none) =
      Except.error "Empty reply from Zendesk" ∧
    updateRes "ticket" (.reply 200 "OK" (some "not json")) =
      Except.error "Unexpected token in JSON" ∧
    showRes "ticket" (.reply 200 "OK" (some "null")) =
      Except.error "Cannot read properties of null (reading ticket)" :=
  ⟨((c8_error_normalization "t" "tickets" "f" .timeout).1 .timeout rfl).1,
   ((c8_error_normalization "ticket" "p" "f" (.transportError "ECONNREFUSED")).1
      (.transport "ECONNREFUSED") rfl).2.1,
   ((c8_error_normalization "t" "tickets" "f" (.reply 404 "Not Found" (some "x"))).1
      (.httpStatus 404 "Not Found") rfl).2.2.1,
   ((c8_error_normalization "ticket" "p" "f" (.reply 200 "OK" none)).1
      .emptyReply rfl).2.2.2.1,
   ((c8_error_normalization "ticket" "p" "f" (.reply 200 "OK" (some "not json"))).1
      (.malformed "Unexpected token in JSON") rfl).2.2.2.2,
   (c8_error_normalization "t" "p" "ticket" (.reply 200 "OK" (some "null"))).2 rfl⟩

theorem tstep_stuck (deadline : Nat) (s : TState) (te : Nat × TEvent)
    (hta : s.timerArmed = false) (hab : s.aborted = true) :
    tstep deadline s te = s := by
  simp [tstep, hta, hab]

theorem foldl_tstep_stuck (deadline : Nat) (events : List (Nat × TEvent)) (s : TState)
    (hta : s.timerArmed = false) (hab : s.aborted = true) :
    events.foldl (tstep deadline) s = s := by
  induction events with
  | nil => rfl
  | cons te rest ih =>
    rw [List.foldl_cons, tstep_stuck deadline s te hta hab]
    exact ih

theorem foldl_tstep_chunks (deadline : Nat) (events : List (Nat × TEvent))
    (h : ∀ te ∈ events, isChunk te.2 = true) :
    ∀ s : TState, s.timerArmed = false → s.aborted = false → s.outcome = none →
      ((events.foldl (tstep deadline) s).timerArmed = false ∧
        (events.foldl (tstep deadline) s).aborted = false ∧
        (events.foldl (tstep deadline) s).outcome = none) := by
  induction events with
  | nil => intro s h1 h2 h3; exact ⟨h1, h2, h3⟩
  | cons te rest ih =>
    intro s h1 h2 h3
    have hc : isChunk te.2 = true := h te (by simp)
    rcases te with ⟨t, e⟩
    cases e with
    | chunk d =>
      rw [List.foldl_cons]
      refine ih (fun te hte => h te (List.mem_cons_of_mem _ hte)) _ ?_ ?_ ?_ <;>
        simp [tstep, h1, h2, h3]
    | endEv st m => simp [isChunk] at hc
    | errEv m => simp [isChunk] at hc

/-- C7 counterexample: a trace that delivers a single data chunk 1000 ms
in and then nothing ever again produces no terminal event within the
default 30000 ms deadline, yet the request neither rejects with a timeout
error nor aborts — the `clearTimeout` on the first chunk cancelled the
only timer and nothing re-arms it, so the callback is never invoked. -/
theorem c7_counterexample :
    (runRequestEvents 30000 [(1000, TEvent.chunk "x")]).outcome = none ∧
    (runRequestEvents 30000 [(1000, TEvent.chunk "x")]).aborted = false :=
  ⟨rfl, rfl⟩

/-- C7 amended: the timeout timer is cleared on every data chunk and on
completion/error, but it is never re-armed; consequently a request whose
response produces no event at all before the deadline rejects with the
timeout error and is aborted (data arriving after the abort is
discarded), while after any data chunk arrives before the deadline the
request can never time out — a connection that stalls after partial data
leaves the request unsettled instead. -/
theorem c7_timer_cleared_never_rearmed (deadline : Nat) :
    (∀ (s : TState) (t : Nat) (e : TEvent), s.aborted = false → s.outcome = none →
      t ≤ deadline → (tstep deadline s (t, e)).timerArmed = false) ∧
    (∀ events : List (Nat × TEvent), (∀ te ∈ events, deadline < te.1) →
      runRequestEvents deadline events =
        { timerArmed := false, aborted := true, body := none,
          outcome := some (.error .timeout) }) ∧
    (∀ (t : Nat) (d : String) (rest : List (Nat × TEvent)), t ≤ deadline →
      (∀ te ∈ rest, isChunk te.2 = true) →
      (runRequestEvents deadline ((t, .chunk d) :: rest)).outcome = none ∧
      (runRequestEvents deadline ((t, .chunk d) :: rest)).aborted = false) := by
  refine ⟨?_, ?_, ?_⟩
  · intro s t e hab ho ht
    have hnotlt : ¬ (deadline < t) := not_lt.mpr ht
    cases e <;> simp [tstep, hab, ho, hnotlt]
  · intro events hall
    cases events with
    | nil => simp [runRequestEvents, initTState, fireTimer]
    | cons te rest =>
      have h1 : tstep deadline initTState te = fireTimer initTState := by
        have hlt : deadline < te.1 := hall te (by simp)
        simp [tstep, initTState, fireTimer, hlt]
      have h2 : (te :: rest).foldl (tstep deadline) initTState =
          fireTimer initTState := by
        rw [List.foldl_cons, h1]
        exact foldl_tstep_stuck deadline rest (fireTimer initTState) rfl rfl
      simp only [runRequestEvents]
      rw [h2]
      rfl
  · intro t d rest ht hrest
    have hnotlt : ¬ (deadline < t) := not_lt.mpr ht
    have harmed : (tstep deadline initTState (t, .chunk d)).timerArmed = false := by
      simp [tstep, initTState, hnotlt]
    have habort : (tstep deadline initTState (t, .chunk d)).aborted = false := by
      simp [tstep, initTState, hnotlt]
    have hout : (tstep deadline initTState (t, .chunk d)).outcome = none := by
      simp [tstep, initTState, hnotlt]
    have hfold := foldl_tstep_chunks deadline rest hrest
      (tstep deadline initTState (t, .chunk d)) harmed habort hout
    constructor <;>
      simp [runRequestEvents, List.foldl_cons, hfold.1, hfold.2.1, hfold.2.2]

/-- Witness for the amended C7: with the default 30000 ms deadline, a
trace whose only event is a chunk after the deadline times out, aborts,
and discards the late chunk; a trace delivering one chunk at 1000 ms and
nothing else never settles and is never aborted. -/
theorem c7_timer_cleared_never_rearmed_witness :
    runRequestEvents 30000 [(40000, TEvent.chunk "late")] =
      { timerArmed := false, aborted := true, body := none,
        outcome := some (.error .timeout) } ∧
    (runRequestEvents 30000 [(1000, TEvent.chunk "x")]).outcome = none ∧
    (runRequestEvents 30000 [(1000, TEvent.chunk "x")]).aborted = false :=
  ⟨(c7_timer_cleared_never_rearmed 30000).2.1 [(40000, .chunk "late")]
      (by intro te hte; rcases List.mem_singleton.mp hte with rfl; decide),
   ((c7_timer_cleared_never_rearmed 30000).2.2 1000 "x" [] (by norm_num)
      (by intro te hte; simp at hte)).1,
   ((c7_timer_cleared_never_rearmed 30000).2.2 1000 "x" [] (by norm_num)
      (by intro te hte; simp at hte)).2⟩

end Zendesk
